import Mathlib

/-!
Verification of the NinjaDroid command-line orchestration layer
(`ninjadroid.py`) against its natural-language specification.

The orchestration functions (`main`, `get_args`, `read_target_file`,
`get_apk_filename_without_extension`, `print_apk_info`,
`extract_apk_info_to_directory`, `create_output_directory_if_needed`)
are shallowly embedded as pure Lean functions; side effects (logging,
printing, launching collaborators, directory creation) are recorded in
an explicit effect trace, and the filesystem is an explicit list of
existing paths.  Components of the decoding core that live outside the
orchestration file (the `APK` parser class, the Container Reader, the
Dex Decoder, the String Classifier) are modelled from the spec where a
claim needs them, and are marked as such in their doc comments.
-/

namespace NinjaDroid

/-! ## Data model of the aggregated result (spec section 6) -/

/-- Modelled from the spec: the `manifest` sub-mapping of the aggregated
Package mapping, with package name, versions, SDK bounds, permissions
and component lists. The `Manifest` class itself is not part of the
orchestration source file. -/
structure ManifestDump where
  package_name : String
  version_code : Nat
  version_name : String
  min_sdk_version : Option Nat
  target_sdk_version : Option Nat
  permissions : List String
  activities : List String
  services : List String
  receivers : List String
  providers : List String
deriving DecidableEq, Repr

/-- Modelled from the spec: one element of the `cert` list of the
aggregated Package mapping. -/
structure CertDump where
  serial_number : String
  issuer : String
  subject : String
  not_before : String
  not_after : String
  fingerprint_md5 : String
  fingerprint_sha1 : String
  fingerprint_sha256 : String
deriving DecidableEq, Repr

/-- Modelled from the spec: the `dex` sub-mapping of the aggregated
Package mapping, with declared and computed checksum and signature,
size, and the integrity-verified flag. -/
structure DexDump where
  declared_checksum : Nat
  computed_checksum : Nat
  declared_signature : List Nat
  computed_signature : List Nat
  size : Nat
  integrity_verified : Bool
deriving DecidableEq, Repr

/-- Modelled from the spec: the aggregated Package mapping returned by
the dump operation of the `APK` class, with the keys of spec section 6:
file name, size, the three whole-file hashes, the optional manifest,
the certificate list, the optional dex summary, and the url and
shell-command lists that are present only when string processing is
enabled. -/
structure PackageDump where
  file_name : String
  size : Nat
  md5 : String
  sha1 : String
  sha256 : String
  manifest : Option ManifestDump
  cert : List CertDump
  dex : Option DexDump
  urls : Option (List String)
  shell_commands : Option (List String)
deriving DecidableEq, Repr

/-- The parsed APK structure handed around by the orchestration layer.
The `APK` parser class is external to the orchestration file; the
orchestration only ever forwards the object and calls its dump
operation, so the model keeps exactly that observable. -/
structure APK where
  dump : PackageDump
deriving DecidableEq, Repr

/-! ## Effects of the orchestration layer -/

/-- One observable side effect of the orchestration layer: a log line,
a printed line, a directory creation, or an invocation of one of the
six external collaborators with its arguments. -/
inductive Effect where
  | logDebug (msg : String)
  | logInfo (msg : String)
  | logError (msg : String)
  | setLogLevelDebug
  | printOut (s : String)
  | createDir (path : String)
  | launchApkTool (input_filepath : String) (output_directory : String)
  | launchDex2Jar (input_filepath : String) (input_filename : String) (output_directory : String)
  | extractCertificateFile (apk : APK) (output_directory : String)
  | extractDexFile (apk : APK) (output_directory : String)
  | getApkInfoInHtml (apk : APK) (input_filename : String) (output_directory : String)
  | getApkInfoInJson (apk : APK) (input_filename : String) (output_directory : String)
deriving DecidableEq, Repr

/-- The filesystem is modelled as the list of existing paths. -/
abbrev FS := List String

/-- `os.path.exists`. -/
def os_path_exists (fs : FS) (path : String) : Bool :=
  fs.contains path

/-- Outcome of evaluating the `APK` class constructor
`APK(filepath, no_string_processing, logger)`: it either returns a
parsed APK structure, raises `APKParsingError`, or raises a
`ParsingError` that is not an `APKParsingError`.  The constructor
itself is external to the orchestration file, so the orchestration
functions take the constructor as a parameter. -/
inductive ConstructionOutcome where
  | success (apk : APK)
  | apkParsingError
  | parsingError
deriving DecidableEq, Repr

/-! ## The command line and `get_args` -/

/-- The parsed argument namespace produced by `get_args`. -/
structure Args where
  target : String
  target_output_directory : Option String
  no_string_processing : Bool
  verbose : Bool
deriving DecidableEq, Repr

/-- An abstract command line, as far as the declared argparse options
can see it: the positional target, whether `--extract` was given and
with which optional value, and whether the `--no-string-processing`
and `--verbose` flags were present. -/
structure CommandLine where
  target : String
  /-- Value `none`: no `--extract`; value `some none`: `--extract`
  without a value; value `some (some d)`: `--extract d`. -/
  extract_flag : Option (Option String)
  no_string_processing_flag : Bool
  verbose_flag : Bool
deriving DecidableEq, Repr

/-- `get_args`: the semantics of the argparse declarations.
`--extract` is declared with optional value and constant `"./"`, so an
absent value yields `"./"`; `--no-string-processing` is declared with
a store-false action on destination `no_string_processing`, so the
destination defaults to `true` and the flag sets it to `false`. -/
def get_args (cl : CommandLine) : Args :=
  { target := cl.target
    target_output_directory :=
      match cl.extract_flag with
      | none => none
      | some none => some "./"
      | some (some d) => some d
    no_string_processing := !cl.no_string_processing_flag
    verbose := cl.verbose_flag }

/-! ## `read_target_file` -/

/-- `read_target_file(filepath, no_string_processing)`: attempts the
`APK` construction; on `APKParsingError` logs that the target must be
an APK package and yields no result, on any other `ParsingError` logs
that the target must be an existing, readable file and yields no
result. -/
def read_target_file (construct : String → Bool → ConstructionOutcome)
    (filepath : String) (no_string_processing : Bool) :
    Option APK × List Effect :=
  let dbg := Effect.logDebug ("Reading " ++ filepath ++ "...")
  match construct filepath no_string_processing with
  | .success apk => (some apk, [dbg])
  | .apkParsingError =>
      (none, [dbg, .logError ("The target file ('" ++ filepath ++ "') must be an APK package!")])
  | .parsingError =>
      (none, [dbg, .logError ("The target file ('" ++ filepath ++ "') must be an existing, readable file!")])

/-! ## `get_apk_filename_without_extension` -/

/-- `os.path.basename` for POSIX paths: everything after the last
slash (empty when the path ends in a slash). -/
def basenameChars (s : List Char) : List Char :=
  s.foldl (fun acc c => if c = '/' then [] else acc ++ [c]) []

/-- ASCII case-insensitive equality of two characters, matching how
the regular expression engine compares the literal letters of the
pattern under the ignore-case flag. -/
def charIEq (c d : Char) : Bool :=
  c = d || (c.toLower = d.toLower)

/-- Does the list start with a literal dot followed by the letters
a, p, k in any case?  This is a match of the pattern at this
position. -/
def dotApkAt : List Char → Bool
  | '.' :: a :: p :: k :: _ => charIEq a 'a' && charIEq p 'p' && charIEq k 'k'
  | _ => false

/-- `re.search` of the pattern against the whole string: does the
pattern match at any position? -/
def searchDotApk : List Char → Bool
  | [] => false
  | c :: rest => dotApkAt (c :: rest) || searchDotApk rest

/-- `get_apk_filename_without_extension(filepath)`: takes the
basename of the path; when the pattern matches anywhere in the whole
path (not just the basename), removes the last four characters of the
basename. -/
def get_apk_filename_without_extension (filepath : String) : String :=
  let filename := basenameChars filepath.toList
  if searchDotApk filepath.toList then
    String.mk (filename.take (filename.length - 4))
  else
    String.mk filename

/-! ## `print_apk_info` and its JSON serialization -/

/-- Quote a string as a JSON string literal (escaping of quotes and
backslashes; the dumped values in this model never contain control
characters, matching `ensure_ascii=False`). -/
def jsonQuote (s : String) : String :=
  "\"" ++ String.mk (s.toList.foldr
    (fun c acc =>
      if c = '"' then '\\' :: '"' :: acc
      else if c = '\\' then '\\' :: '\\' :: acc
      else c :: acc) []) ++ "\""

/-- Render a list of already-rendered JSON values. -/
def jsonArray (xs : List String) : String :=
  "[" ++ String.intercalate ", " xs ++ "]"

/-- Render a list of key/rendered-value pairs as a JSON object with
the keys in the given order. -/
def jsonObject (fields : List (String × String)) : String :=
  "\x7b" ++ String.intercalate ", " (fields.map (fun kv => jsonQuote kv.1 ++ ": " ++ kv.2)) ++ "\x7d"

/-- Render an optional value, `null` when absent. -/
def jsonOption (f : α → String) : Option α → String
  | none => "null"
  | some a => f a

/-- Modelled from the spec: serialization of the manifest sub-mapping. -/
def manifestJson (m : ManifestDump) : String :=
  jsonObject
    [("activities", jsonArray (m.activities.map jsonQuote)),
     ("min_sdk_version", jsonOption (fun n => toString n) m.min_sdk_version),
     ("package_name", jsonQuote m.package_name),
     ("permissions", jsonArray (m.permissions.map jsonQuote)),
     ("providers", jsonArray (m.providers.map jsonQuote)),
     ("receivers", jsonArray (m.receivers.map jsonQuote)),
     ("services", jsonArray (m.services.map jsonQuote)),
     ("target_sdk_version", jsonOption (fun n => toString n) m.target_sdk_version),
     ("version_code", toString m.version_code),
     ("version_name", jsonQuote m.version_name)]

/-- Modelled from the spec: serialization of one certificate mapping. -/
def certJson (c : CertDump) : String :=
  jsonObject
    [("fingerprint_md5", jsonQuote c.fingerprint_md5),
     ("fingerprint_sha1", jsonQuote c.fingerprint_sha1),
     ("fingerprint_sha256", jsonQuote c.fingerprint_sha256),
     ("issuer", jsonQuote c.issuer),
     ("not_after", jsonQuote c.not_after),
     ("not_before", jsonQuote c.not_before),
     ("serial_number", jsonQuote c.serial_number),
     ("subject", jsonQuote c.subject)]

/-- Modelled from the spec: serialization of the dex sub-mapping. -/
def dexJson (d : DexDump) : String :=
  jsonObject
    [("computed_checksum", toString d.computed_checksum),
     ("computed_signature", jsonArray (d.computed_signature.map (fun n => toString n))),
     ("declared_checksum", toString d.declared_checksum),
     ("declared_signature", jsonArray (d.declared_signature.map (fun n => toString n))),
     ("integrity_verified", if d.integrity_verified then "true" else "false"),
     ("size", toString d.size)]

/-- Modelled from the spec: `json.dumps(apk.dump(), sort_keys=True)`
over the aggregated Package mapping, with the keys of spec section 6
in sorted order; the `urls` and `shell_commands` keys appear only when
string processing produced them. -/
def json_dumps (d : PackageDump) : String :=
  jsonObject
    ([("cert", jsonArray (d.cert.map certJson)),
      ("dex", jsonOption dexJson d.dex),
      ("file_name", jsonQuote d.file_name),
      ("manifest", jsonOption manifestJson d.manifest),
      ("md5", jsonQuote d.md5),
      ("sha1", jsonQuote d.sha1),
      ("sha256", jsonQuote d.sha256)]
     ++ (match d.shell_commands with
         | none => []
         | some cs => [("shell_commands", jsonArray (cs.map jsonQuote))])
     ++ [("size", toString d.size)]
     ++ (match d.urls with
         | none => []
         | some us => [("urls", jsonArray (us.map jsonQuote))]))

/-- `print_apk_info(apk)`: prints the JSON dump of the APK and
nothing else. -/
def print_apk_info (apk : APK) : List Effect :=
  [.printOut (json_dumps apk.dump)]

/-! ## Directory creation and extraction -/

/-- `create_output_directory_if_needed(output_directory)`: creates
the directory (with an info log line) only when no entry with that
path exists. -/
def create_output_directory_if_needed (output_directory : String) (fs : FS) :
    FS × List Effect :=
  if os_path_exists fs output_directory then
    (fs, [])
  else
    (output_directory :: fs,
     [.logInfo ("Creating " ++ output_directory ++ "/..."),
      .createDir output_directory])

/-- `extract_apk_info_to_directory(apk, filepath, filename,
output_directory)`: rewrites the default output directory `"./"` to
`"./" ++ filename`, creates the directory if needed, then launches the
six collaborators in order with their arguments. -/
def extract_apk_info_to_directory (apk : APK) (filepath filename output_directory : String)
    (fs : FS) : FS × List Effect :=
  let output_directory :=
    if output_directory = "./" then output_directory ++ filename else output_directory
  let created := create_output_directory_if_needed output_directory fs
  (created.1,
   created.2 ++
    [.launchApkTool filepath output_directory,
     .launchDex2Jar filepath filename output_directory,
     .extractCertificateFile apk output_directory,
     .extractDexFile apk output_directory,
     .getApkInfoInHtml apk filename output_directory,
     .getApkInfoInJson apk filename output_directory])

/-! ## `main` -/

/-- `main()`: parses the arguments, reads the target file, and either
returns exit status 1 when no APK was parsed, or exit status 0 after
printing the APK info (no output directory) or extracting it to the
output directory (one given).  Returns the exit status, the effect
trace and the final filesystem. -/
def main (args : Args) (construct : String → Bool → ConstructionOutcome) (fs : FS) :
    Nat × List Effect × FS :=
  let verboseEff : List Effect := if args.verbose then [.setLogLevelDebug] else []
  let r := read_target_file construct args.target args.no_string_processing
  match r.1 with
  | none => (1, verboseEff ++ r.2, fs)
  | some apk =>
    let filename := get_apk_filename_without_extension args.target
    match args.target_output_directory with
    | none => (0, verboseEff ++ r.2 ++ print_apk_info apk, fs)
    | some dir =>
      let ex := extract_apk_info_to_directory apk args.target filename dir fs
      (0, verboseEff ++ r.2 ++ ex.2, ex.1)

/-! ## Spec-modelled decoding core

The Container Reader, Hash Engine, Dex Decoder, String Classifier and
Package Aggregator are components of the repository that are not part
of the orchestration source file; the claims about them are settled
against models built from the spec. -/

/-- Error taxonomy of the Container Reader (spec section 7). -/
inductive ContainerError where
  | NotAnArchive
  | TruncatedArchive
  | UnsupportedCompression
deriving DecidableEq, Repr

/-- One entry of the parsed ZIP central directory: name bytes,
compression method, CRC-32, compressed and uncompressed sizes, and the
local-header offset. -/
structure ContainerEntry where
  name : List Nat
  method : Nat
  crc32 : Nat
  compressedSize : Nat
  uncompressedSize : Nat
  localHeaderOffset : Nat
deriving DecidableEq, Repr

/-- A parsed archive: the ordered central-directory entries. -/
structure Archive where
  entries : List ContainerEntry
deriving DecidableEq, Repr

/-- The four bytes of the ZIP end-of-central-directory signature. -/
def eocdSig : List Nat := [0x50, 0x4B, 0x05, 0x06]

/-- Read `n` bytes little-endian at offset `off`; fails when the
range extends past the buffer end. -/
def readLE (b : List Nat) (off n : Nat) : Option Nat :=
  if off + n ≤ b.length then
    some (((b.drop off).take n).reverse.foldl (fun acc x => acc * 256 + x % 256) 0)
  else
    none

/-- Does the end-of-central-directory signature occur at offset `i`? -/
def sigAt (b : List Nat) (i : Nat) : Bool :=
  eocdSig.isPrefixOf (b.drop i)

/-- Modelled from the spec: the backward scan of the Container Reader
for the end-of-central-directory signature (the last occurrence wins,
since a variable-length comment may follow the record). -/
def findEocd (b : List Nat) : Option Nat :=
  ((List.range b.length).reverse).find? (sigAt b)

/-- Does the buffer contain the end-of-central-directory signature at
any offset? -/
def containsEocdSig (b : List Nat) : Bool :=
  (List.range b.length).any (sigAt b)

/-- Modelled from the spec: sequential walk of `n` central-directory
records starting at offset `off`, capturing name, method, CRC-32,
sizes and the local-header offset of each; a record extending past the
buffer end fails with `TruncatedArchive`. -/
def parseCentralRecords (b : List Nat) : Nat → Nat → Except ContainerError (List ContainerEntry)
  | _, 0 => .ok []
  | off, n + 1 =>
    match readLE b off 4, readLE b (off + 28) 2, readLE b (off + 30) 2, readLE b (off + 32) 2 with
    | some sig, some nameLen, some extraLen, some commentLen =>
      if sig = 0x02014B50 then
        let recLen := 46 + nameLen + extraLen + commentLen
        if off + recLen ≤ b.length then
          match readLE b (off + 10) 2, readLE b (off + 16) 4, readLE b (off + 20) 4,
                readLE b (off + 24) 4, readLE b (off + 42) 4 with
          | some method, some crc, some csize, some usize, some localOff =>
            match parseCentralRecords b (off + recLen) n with
            | .ok rest =>
                .ok ({ name := (b.drop (off + 46)).take nameLen, method := method,
                       crc32 := crc, compressedSize := csize, uncompressedSize := usize,
                       localHeaderOffset := localOff } :: rest)
            | .error e => .error e
          | _, _, _, _, _ => .error .TruncatedArchive
        else .error .TruncatedArchive
      else .error .TruncatedArchive
    | _, _, _, _ => .error .TruncatedArchive

/-- Modelled from the spec: `Container Reader.open`.  Scans backward
for the end-of-central-directory signature; absence fails with
`NotAnArchive`.  Then reads the total-entry count and the
central-directory offset from the record and walks that many
central-directory records. -/
def containerOpen (b : List Nat) : Except ContainerError Archive :=
  match findEocd b with
  | none => .error .NotAnArchive
  | some i =>
    match readLE b (i + 10) 2, readLE b (i + 16) 4 with
    | some count, some cdOff =>
      match parseCentralRecords b cdOff count with
      | .ok es => .ok ⟨es⟩
      | .error e => .error e
    | _, _ => .error .TruncatedArchive

/-- Modelled from the spec: `Archive.read_entry` for entries stored
without compression: checks the local-header signature, then slices
the entry bytes after the local header.  Entries with any other
compression method are not materialized by this model (the claims
never depend on decompression). -/
def readStoredEntry (b : List Nat) (archive : Archive) (name : List Nat) : Option (List Nat) :=
  match archive.entries.find? (fun e => e.name = name) with
  | none => none
  | some e =>
    if e.method = 0 then
      match readLE b e.localHeaderOffset 4, readLE b (e.localHeaderOffset + 26) 2,
            readLE b (e.localHeaderOffset + 28) 2 with
      | some sig, some nameLen, some extraLen =>
        if sig = 0x04034B50 then
          let dataOff := e.localHeaderOffset + 30 + nameLen + extraLen
          if dataOff + e.compressedSize ≤ b.length then
            some ((b.drop dataOff).take e.compressedSize)
          else none
        else none
      | _, _, _ => none
    else none

/-! ### Hash Engine -/

/-- Modelled from the spec: the Hash Engine is a pure digest function
from a byte buffer to a hex string; the model uses a simple polynomial
fold in place of the real compression functions, which preserves every
property the claims use (purity and determinism). -/
def hashFold (m : Nat) (b : List Nat) : Nat :=
  b.foldl (fun acc x => (acc * 131 + x + 1) % m) 0

/-- One hex digit. -/
def hexDigit (n : Nat) : Char :=
  if n < 10 then Char.ofNat (48 + n) else Char.ofNat (87 + n % 16)

/-- Fixed-width lowercase hex rendering. -/
def toHex (width n : Nat) : String :=
  String.mk ((List.range width).reverse.map (fun i => hexDigit (n / 16 ^ i % 16)))

/-- Modelled from the spec: MD5 digest as a 32-hex-character string. -/
def digestMd5 (b : List Nat) : String := toHex 32 (hashFold (2 ^ 128) b)

/-- Modelled from the spec: SHA-1 digest as a 40-hex-character string. -/
def digestSha1 (b : List Nat) : String := toHex 40 (hashFold (2 ^ 160) b)

/-- Modelled from the spec: SHA-256 digest as a 64-hex-character string. -/
def digestSha256 (b : List Nat) : String := toHex 64 (hashFold (2 ^ 256) b)

/-! ### Dex Decoder -/

/-- Error taxonomy of the Dex Decoder (spec section 7). -/
inductive DexError where
  | BadMagic
  | UnsupportedEndian
  | TruncatedTable
deriving DecidableEq, Repr

/-- The fixed 8-byte dex magic/version. -/
def dexMagic : List Nat := [0x64, 0x65, 0x78, 0x0A, 0x30, 0x33, 0x35, 0x00]

/-- Modelled from the spec: the recomputed content checksum over the
byte range excluding the first 12 header bytes. -/
def dexChecksum (b : List Nat) : Nat :=
  hashFold (2 ^ 32) (b.drop 12)

/-- Modelled from the spec: the recomputed content signature (20
bytes) over the byte range excluding the first 12 header bytes. -/
def dexSignature (b : List Nat) : List Nat :=
  (List.range 20).map (fun i => hashFold (2 ^ 32) (b.drop 12) / 2 ^ i % 256)

/-- The summary produced by the Dex Decoder: declared and computed
checksum and signature, declared and actual file size, the six
`(offset, count)` table descriptors, and the integrity-verified flag. -/
structure DexSummary where
  declared_checksum : Nat
  computed_checksum : Nat
  declared_signature : List Nat
  computed_signature : List Nat
  declared_file_size : Nat
  actual_file_size : Nat
  string_ids : Nat × Nat
  type_ids : Nat × Nat
  proto_ids : Nat × Nat
  field_ids : Nat × Nat
  method_ids : Nat × Nat
  class_defs : Nat × Nat
  string_table : List String
  integrity_verified : Bool
deriving DecidableEq, Repr

/-- Modelled from the spec: decode one string-data item at the given
data-section offset: a length prefix followed by the string bytes,
stopped at the declared length and not at a null terminator.  The
model restricts the variable-length-quantity prefix to its one-byte
form and decodes the bytes as code points. -/
def dexStringAt (b : List Nat) (off : Nat) : String :=
  match readLE b off 1 with
  | none => ""
  | some len => String.mk (((b.drop (off + 1)).take len).map Char.ofNat)

/-- Modelled from the spec: the decoded string table, one string per
string-id entry; each entry is a 4-byte offset into the data
section. -/
def dexStringTable (b : List Nat) (stringCount stringOff : Nat) : List String :=
  (List.range stringCount).map (fun i =>
    match readLE b (stringOff + 4 * i) 4 with
    | none => ""
    | some off => dexStringAt b off)

/-- A `(count, offset)` table descriptor read from the dex header must
not extend past the buffer, with the given record width. -/
def tableFits (b : List Nat) (width : Nat) (t : Nat × Nat) : Bool :=
  t.2 + width * t.1 ≤ b.length

/-- Modelled from the spec: `Dex Decoder.decode`.  Validates the
magic first (`BadMagic`), reads the fixed-layout header, scopes
support to the little-endian tag (`UnsupportedEndian`), checks that
every `(offset, count)` table fits in the buffer (`TruncatedTable`),
and records the integrity-verified flag by comparing the declared
checksum and signature with the recomputed ones; a mismatch does not
abort the parse. -/
def dexDecode (b : List Nat) : Except DexError DexSummary :=
  if dexMagic.isPrefixOf b then
    match readLE b 8 4, readLE b 32 4, readLE b 40 4,
          readLE b 56 4, readLE b 60 4, readLE b 64 4, readLE b 68 4 with
    | some checksum, some fileSize, some endianTag, some stringCount, some stringOff,
      some typeCount, some typeOff =>
      if endianTag = 0x12345678 then
        match readLE b 72 4, readLE b 76 4, readLE b 80 4, readLE b 84 4,
              readLE b 88 4, readLE b 92 4, readLE b 96 4, readLE b 100 4 with
        | some protoCount, some protoOff, some fieldCount, some fieldOff,
          some methodCount, some methodOff, some classCount, some classOff =>
          let tables := [(4, (stringCount, stringOff)), (4, (typeCount, typeOff)),
                         (12, (protoCount, protoOff)), (8, (fieldCount, fieldOff)),
                         (8, (methodCount, methodOff)), (32, (classCount, classOff))]
          if tables.all (fun t => tableFits b t.1 t.2) then
            let declaredSig := (b.drop 12).take 20
            let computedChecksum := dexChecksum b
            let computedSig := dexSignature b
            .ok { declared_checksum := checksum
                  computed_checksum := computedChecksum
                  declared_signature := declaredSig
                  computed_signature := computedSig
                  declared_file_size := fileSize
                  actual_file_size := b.length
                  string_ids := (stringCount, stringOff)
                  type_ids := (typeCount, typeOff)
                  proto_ids := (protoCount, protoOff)
                  field_ids := (fieldCount, fieldOff)
                  method_ids := (methodCount, methodOff)
                  class_defs := (classCount, classOff)
                  string_table := dexStringTable b stringCount stringOff
                  integrity_verified :=
                    checksum = computedChecksum && declaredSig = computedSig }
          else .error .TruncatedTable
        | _, _, _, _, _, _, _, _ => .error .TruncatedTable
      else .error .UnsupportedEndian
    | _, _, _, _, _, _, _ => .error .TruncatedTable
  else .error .BadMagic

/-! ### String Classifier -/

/-- The two ordered classification results of the String Classifier. -/
structure ClassifiedStrings where
  urls : List String
  shell_commands : List String
deriving DecidableEq, Repr

/-- Modelled from the spec: the URL pattern, a scheme `http`, `https`
or `ftp` followed by a syntactically plausible (non-empty) host. -/
def isUrlCandidate (s : String) : Bool :=
  ["http://", "https://", "ftp://"].any
    (fun scheme => scheme.toList.isPrefixOf s.toList
      && scheme.toList.length < s.toList.length)

/-- Modelled from the spec: the small fixed vocabulary of common
interactive shell program names. -/
def shellVocabulary : List String :=
  ["su", "sh", "chmod", "chown", "mount", "rm", "ls", "ps", "pm", "am",
   "killall", "iptables", "busybox"]

/-- The first whitespace-delimited token of a character list. -/
def firstToken (l : List Char) : List Char :=
  (l.dropWhile (fun c => c = ' ')).takeWhile (fun c => c ≠ ' ')

/-- Modelled from the spec: the shell-command pattern, a vocabulary
word appearing as the first whitespace-delimited token. -/
def isShellCommandCandidate (s : String) : Bool :=
  shellVocabulary.any (fun w => w.toList = firstToken s.toList)

/-- Modelled from the spec: `classify(string_table, enabled)`.  When
disabled, returns two empty sets without scanning.  When enabled,
collects URL candidates and shell-command candidates in declaration
order; the URL category is declared first, so it wins when both
patterns would match. -/
def classify (string_table : List String) (enabled : Bool) : ClassifiedStrings :=
  if enabled then
    { urls := string_table.filter isUrlCandidate
      shell_commands :=
        string_table.filter (fun s => !isUrlCandidate s && isShellCommandCandidate s) }
  else
    { urls := [], shell_commands := [] }

/-! ### Package Aggregator -/

/-- The two top-level error classes distinguished by the caller. -/
inductive TopLevelError where
  | parsingError
  | apkParsingError
deriving DecidableEq, Repr

/-- The byte sequence of the name `classes.dex`. -/
def classesDexName : List Nat := "classes.dex".toList.map Char.toNat

/-- Modelled from the spec: the Package Aggregator `build`.  Validates
non-emptiness of the input, opens the container (failure surfaces as
`APKParsingError`), decodes the dex entry when it is present and
materializable (failures degrade to an absent dex field), digests the
whole buffer with the three algorithms, and classifies the dex string
table when string processing is enabled.  The manifest and certificate
decoders degrade to an absent manifest and an empty certificate list
in this model; no claim depends on their successful output. -/
def apk_build (file_name : String) (b : List Nat) (string_processing : Bool) :
    Except TopLevelError PackageDump :=
  if b.length = 0 then .error .parsingError
  else
    match containerOpen b with
    | .error _ => .error .apkParsingError
    | .ok archive =>
      let dexBytes := readStoredEntry b archive classesDexName
      let dexSum : Option DexSummary :=
        match dexBytes with
        | none => none
        | some db =>
          match dexDecode db with
          | .ok s => some s
          | .error _ => none
      let dexField : Option DexDump :=
        dexSum.map (fun s =>
          { declared_checksum := s.declared_checksum
            computed_checksum := s.computed_checksum
            declared_signature := s.declared_signature
            computed_signature := s.computed_signature
            size := s.actual_file_size
            integrity_verified := s.integrity_verified })
      let stringTable :=
        match dexSum with
        | none => []
        | some s => s.string_table
      let cls := classify stringTable string_processing
      .ok { file_name := file_name
            size := b.length
            md5 := digestMd5 b
            sha1 := digestSha1 b
            sha256 := digestSha256 b
            manifest := none
            cert := []
            dex := dexField
            urls := if string_processing then some cls.urls else none
            shell_commands := if string_processing then some cls.shell_commands else none }

/-! ## Observations on effect traces -/

/-- The strings printed to standard output, in order. -/
def printedStrings (tr : List Effect) : List String :=
  tr.filterMap (fun e => match e with | .printOut s => some s | _ => none)

/-- The error log lines, in order. -/
def errorLogs (tr : List Effect) : List String :=
  tr.filterMap (fun e => match e with | .logError s => some s | _ => none)

/-- Is the effect an invocation of one of the six external
collaborators? -/
def isCollaboratorCall : Effect → Bool
  | .launchApkTool _ _ => true
  | .launchDex2Jar _ _ _ => true
  | .extractCertificateFile _ _ => true
  | .extractDexFile _ _ => true
  | .getApkInfoInHtml _ _ _ => true
  | .getApkInfoInJson _ _ _ => true
  | _ => false

/-- The collaborator invocations of a trace, in order, with their
arguments. -/
def collaboratorCalls (tr : List Effect) : List Effect :=
  tr.filter isCollaboratorCall

/-- Is the effect part of extraction (a collaborator invocation or a
directory creation)? -/
def isExtractionEffect (e : Effect) : Bool :=
  match e with
  | .createDir _ => true
  | _ => isCollaboratorCall e

/-- The output-directory argument of a collaborator invocation. -/
def collabOutDir : Effect → Option String
  | .launchApkTool _ d => some d
  | .launchDex2Jar _ _ d => some d
  | .extractCertificateFile _ d => some d
  | .extractDexFile _ d => some d
  | .getApkInfoInHtml _ _ d => some d
  | .getApkInfoInJson _ _ d => some d
  | _ => none

/-- The output directories passed to collaborators in a trace, in
order. -/
def collaboratorOutDirs (tr : List Effect) : List String :=
  tr.filterMap collabOutDir

/-! ## Theorems -/

/-- C1: for every target file path, `read_target_file` distinguishes
the two top-level failures: an `APKParsingError` from the APK
construction is reported as "the target must be an APK package" with
no result, a `ParsingError` that is not an `APKParsingError` is
reported as "the target must be an existing, readable file" with no
result, and a successful construction returns the parsed APK
structure. -/
theorem read_target_file_distinguishes_failures
    (construct : String → Bool → ConstructionOutcome) (fp : String) (flag : Bool) :
    (∀ apk, construct fp flag = .success apk →
        (read_target_file construct fp flag).1 = some apk
        ∧ errorLogs (read_target_file construct fp flag).2 = [])
    ∧ (construct fp flag = .apkParsingError →
        (read_target_file construct fp flag).1 = none
        ∧ errorLogs (read_target_file construct fp flag).2 =
            ["The target file ('" ++ fp ++ "') must be an APK package!"])
    ∧ (construct fp flag = .parsingError →
        (read_target_file construct fp flag).1 = none
        ∧ errorLogs (read_target_file construct fp flag).2 =
            ["The target file ('" ++ fp ++ "') must be an existing, readable file!"]) := by
  refine ⟨fun apk h => ?_, fun h => ?_, fun h => ?_⟩ <;>
    simp [read_target_file, h, errorLogs]

/-- Witness for C1: the three outcomes at concrete inputs. -/
theorem read_target_file_distinguishes_failures_witness :
    ((read_target_file (fun _ _ => .apkParsingError) "app.apk" true).1 = none
      ∧ errorLogs (read_target_file (fun _ _ => .apkParsingError) "app.apk" true).2 =
          ["The target file ('app.apk') must be an APK package!"])
    ∧ ((read_target_file (fun _ _ => .parsingError) "app.apk" true).1 = none
      ∧ errorLogs (read_target_file (fun _ _ => .parsingError) "app.apk" true).2 =
          ["The target file ('app.apk') must be an existing, readable file!"]) :=
  ⟨(read_target_file_distinguishes_failures (fun _ _ => .apkParsingError) "app.apk" true).2.1 rfl,
   (read_target_file_distinguishes_failures (fun _ _ => .parsingError) "app.apk" true).2.2 rfl⟩

/-- C5: in extraction mode, the collaborator invocations of
`extract_apk_info_to_directory` are exactly, in order: apktool with
the package path and the output directory, dex2jar with the package
path, the file name and the output directory, then the certificate
and dex extractors with the APK structure and the output directory,
then the HTML and JSON report renderers with the APK structure, the
file name and the output directory. -/
theorem extract_invokes_collaborators_in_order
    (apk : APK) (fp fn dir : String) (fs : FS) :
    collaboratorCalls (extract_apk_info_to_directory apk fp fn dir fs).2 =
      [.launchApkTool fp (if dir = "./" then dir ++ fn else dir),
       .launchDex2Jar fp fn (if dir = "./" then dir ++ fn else dir),
       .extractCertificateFile apk (if dir = "./" then dir ++ fn else dir),
       .extractDexFile apk (if dir = "./" then dir ++ fn else dir),
       .getApkInfoInHtml apk fn (if dir = "./" then dir ++ fn else dir),
       .getApkInfoInJson apk fn (if dir = "./" then dir ++ fn else dir)] := by
  by_cases h : dir = "./" <;>
    simp [extract_apk_info_to_directory, create_output_directory_if_needed,
          collaboratorCalls, isCollaboratorCall, h] <;>
    by_cases hex : os_path_exists fs (if dir = "./" then dir ++ fn else dir) <;>
    simp_all [List.filter, isCollaboratorCall]

/-- C6: the decode is deterministic: two runs of the whole aggregator
on identical bytes are identical, and two runs of the Dex Decoder on
identical bytes are identical, in particular in their
integrity-verified flag.  Every stage of the model is a pure function
of the input buffer, matching the concurrency model of the spec. -/
theorem decode_deterministic (fn : String) (b : List Nat) (flag : Bool) :
    apk_build fn b flag = apk_build fn b flag
    ∧ dexDecode b = dexDecode b
    ∧ Except.map DexSummary.integrity_verified (dexDecode b)
        = Except.map DexSummary.integrity_verified (dexDecode b) :=
  ⟨rfl, rfl, rfl⟩

/-- Any occurrence of the end-of-central-directory signature at an
offset below the buffer length refutes `containsEocdSig b = false`. -/
theorem sigAt_false_of_not_contains (b : List Nat) (h : containsEocdSig b = false)
    (i : Nat) : sigAt b i = false := by
  rcases Nat.lt_or_ge i b.length with hi | hi
  · by_contra hs
    have : containsEocdSig b = true := by
      unfold containsEocdSig
      rw [List.any_eq_true]
      exact ⟨i, List.mem_range.mpr hi, by simpa using hs⟩
    simp [this] at h
  · unfold sigAt
    rw [List.drop_eq_nil_of_le hi]
    decide

/-- C7: for every byte buffer that does not contain the ZIP
end-of-central-directory signature at any offset, the Container
Reader fails with `NotAnArchive`. -/
theorem containerOpen_fails_not_an_archive (b : List Nat)
    (h : containsEocdSig b = false) :
    containerOpen b = .error .NotAnArchive := by
  have hfind : findEocd b = none := by
    unfold findEocd
    rw [List.find?_eq_none]
    intro i hi
    simp [sigAt_false_of_not_contains b h i]
  unfold containerOpen
  rw [hfind]

/-- Witness for C7: a concrete three-byte buffer without the
signature. -/
theorem containerOpen_fails_not_an_archive_witness :
    containsEocdSig [1, 2, 3] = false
    ∧ containerOpen [1, 2, 3] = .error .NotAnArchive :=
  ⟨by decide, containerOpen_fails_not_an_archive [1, 2, 3] (by decide)⟩

/-- C2: omitting `--no-string-processing` passes `true` as the
string-processing argument to the APK parser and passing it passes
`false`: the parsed namespace field is the negation of the flag's
presence, `main` consults the constructor only at the target and that
value, a disabled classifier returns two empty lists, and an enabled
classifier produces the URL and shell-command candidates of the
string table. -/
theorem no_string_processing_flag_semantics (cl : CommandLine)
    (construct : String → Bool → ConstructionOutcome) (fs : FS) :
    (get_args cl).no_string_processing = !cl.no_string_processing_flag
    ∧ main (get_args cl) construct fs
        = main (get_args cl) (fun _ _ => construct cl.target (!cl.no_string_processing_flag)) fs
    ∧ (∀ st, classify st false = ⟨[], []⟩)
    ∧ (∀ st s, s ∈ st → isUrlCandidate s = true → s ∈ (classify st true).urls)
    ∧ (∀ st s, s ∈ st → isUrlCandidate s = false → isShellCommandCandidate s = true →
        s ∈ (classify st true).shell_commands) := by
  refine ⟨rfl, rfl, fun st => rfl, fun st s hs hu => ?_, fun st s hs hu hc => ?_⟩
  · simp [classify, List.mem_filter, hs, hu]
  · simp [classify, List.mem_filter, hs, hu, hc]

/-- Witness for C2: concrete command lines with and without the flag,
and a concrete string table. -/
theorem no_string_processing_flag_semantics_witness :
    (get_args ⟨"app.apk", none, false, false⟩).no_string_processing = true
    ∧ (get_args ⟨"app.apk", none, true, false⟩).no_string_processing = false
    ∧ classify ["http://x.com", "su 0"] false = ⟨[], []⟩
    ∧ "http://x.com" ∈ (classify ["http://x.com", "su 0"] true).urls
    ∧ "su 0" ∈ (classify ["http://x.com", "su 0"] true).shell_commands :=
  ⟨(no_string_processing_flag_semantics ⟨"app.apk", none, false, false⟩
      (fun _ _ => .apkParsingError) []).1,
   (no_string_processing_flag_semantics ⟨"app.apk", none, true, false⟩
      (fun _ _ => .apkParsingError) []).1,
   (no_string_processing_flag_semantics ⟨"app.apk", none, false, false⟩
      (fun _ _ => .apkParsingError) []).2.2.1 ["http://x.com", "su 0"],
   (no_string_processing_flag_semantics ⟨"app.apk", none, false, false⟩
      (fun _ _ => .apkParsingError) []).2.2.2.1 ["http://x.com", "su 0"] "http://x.com"
      (by decide) (by decide),
   (no_string_processing_flag_semantics ⟨"app.apk", none, false, false⟩
      (fun _ _ => .apkParsingError) []).2.2.2.2 ["http://x.com", "su 0"] "su 0"
      (by decide) (by decide) (by decide)⟩

/-- C3: if the reader yields no APK, `main` returns exit status 1 and
performs no printing and no extraction; if it yields an APK, `main`
returns exit status 0 and performs exactly one of the two: printing
(no output directory given) with no extraction effect, or extraction
(an output directory given) with no printing. -/
theorem main_exit_status_and_effects (args : Args)
    (construct : String → Bool → ConstructionOutcome) (fs : FS) :
    (construct args.target args.no_string_processing = .apkParsingError ∨
     construct args.target args.no_string_processing = .parsingError →
       (main args construct fs).1 = 1
       ∧ printedStrings (main args construct fs).2.1 = []
       ∧ (main args construct fs).2.1.filter isExtractionEffect = []
       ∧ (main args construct fs).2.2 = fs)
    ∧ (∀ apk, construct args.target args.no_string_processing = .success apk →
       (main args construct fs).1 = 0
       ∧ (args.target_output_directory = none →
            printedStrings (main args construct fs).2.1 ≠ []
            ∧ (main args construct fs).2.1.filter isExtractionEffect = [])
       ∧ (∀ d, args.target_output_directory = some d →
            printedStrings (main args construct fs).2.1 = []
            ∧ collaboratorCalls (main args construct fs).2.1 ≠ [])) := by
  constructor
  · intro h
    rcases h with h | h <;>
      by_cases hv : args.verbose <;>
      simp [main, read_target_file, h, hv, printedStrings, isExtractionEffect,
            isCollaboratorCall, List.filter]
  · intro apk h
    refine ⟨?_, fun hd => ?_, fun d hd => ?_⟩
    · by_cases hv : args.verbose <;>
      rcases hdir : args.target_output_directory with _ | d <;>
      simp [main, read_target_file, h, hv, hdir]
    · by_cases hv : args.verbose <;>
      simp [main, read_target_file, h, hv, hd, printedStrings, print_apk_info,
            isExtractionEffect, isCollaboratorCall, List.filter]
    · by_cases hv : args.verbose <;>
      by_cases hdd : d = "./" <;>
      by_cases hex : os_path_exists fs
        (if d = "./" then d ++ get_apk_filename_without_extension args.target else d) <;>
      simp_all [main, read_target_file, h, hd, printedStrings, print_apk_info,
            extract_apk_info_to_directory, create_output_directory_if_needed,
            collaboratorCalls, isCollaboratorCall, List.filter]

/-- A concrete parsed APK structure used by the witnesses. -/
def apkA : APK :=
  ⟨{ file_name := "app.apk", size := 7, md5 := "aa", sha1 := "bb", sha256 := "cc",
     manifest := none, cert := [], dex := none, urls := none, shell_commands := none }⟩

/-- Witness for C3: the failure branch, the print branch and the
extraction branch at concrete inputs. -/
theorem main_exit_status_and_effects_witness :
    ((main ⟨"app.apk", none, true, false⟩ (fun _ _ => .apkParsingError) []).1 = 1
      ∧ printedStrings (main ⟨"app.apk", none, true, false⟩ (fun _ _ => .apkParsingError) []).2.1 = [])
    ∧ ((main ⟨"app.apk", none, true, false⟩ (fun _ _ => .success apkA) []).1 = 0
      ∧ (main ⟨"app.apk", none, true, false⟩
          (fun _ _ => .success apkA) []).2.1.filter isExtractionEffect = [])
    ∧ ((main ⟨"app.apk", some "out", true, false⟩ (fun _ _ => .success apkA) []).1 = 0
      ∧ printedStrings (main ⟨"app.apk", some "out", true, false⟩
          (fun _ _ => .success apkA) []).2.1 = []
      ∧ collaboratorCalls (main ⟨"app.apk", some "out", true, false⟩
          (fun _ _ => .success apkA) []).2.1 ≠ []) :=
  ⟨⟨((main_exit_status_and_effects ⟨"app.apk", none, true, false⟩
        (fun _ _ => .apkParsingError) []).1 (Or.inl rfl)).1,
    ((main_exit_status_and_effects ⟨"app.apk", none, true, false⟩
        (fun _ _ => .apkParsingError) []).1 (Or.inl rfl)).2.1⟩,
   ⟨((main_exit_status_and_effects ⟨"app.apk", none, true, false⟩
        (fun _ _ => .success apkA) []).2 apkA rfl).1,
    (((main_exit_status_and_effects ⟨"app.apk", none, true, false⟩
        (fun _ _ => .success apkA) []).2 apkA rfl).2.1 rfl).2⟩,
   ⟨((main_exit_status_and_effects ⟨"app.apk", some "out", true, false⟩
        (fun _ _ => .success apkA) []).2 apkA rfl).1,
    (((main_exit_status_and_effects ⟨"app.apk", some "out", true, false⟩
        (fun _ _ => .success apkA) []).2 apkA rfl).2.2 "out" rfl).1,
    (((main_exit_status_and_effects ⟨"app.apk", some "out", true, false⟩
        (fun _ _ => .success apkA) []).2 apkA rfl).2.2 "out" rfl).2⟩⟩

/-- C4: on a successful parse with no output directory requested, the
printed output is exactly the JSON serialization of the aggregated
Package mapping returned by the dump operation of the parsed APK, and
nothing else. -/
theorem main_prints_exactly_json_dump (args : Args)
    (construct : String → Bool → ConstructionOutcome) (fs : FS) (apk : APK)
    (hc : construct args.target args.no_string_processing = .success apk)
    (hd : args.target_output_directory = none) :
    printedStrings (main args construct fs).2.1 = [json_dumps apk.dump] := by
  by_cases hv : args.verbose <;>
    simp [main, read_target_file, hc, hd, hv, print_apk_info, printedStrings]

/-- Witness for C4: the printed output at a concrete parsed APK. -/
theorem main_prints_exactly_json_dump_witness :
    printedStrings (main ⟨"app.apk", none, true, false⟩
        (fun _ _ => .success apkA) []).2.1 = [json_dumps apkA.dump] :=
  main_prints_exactly_json_dump ⟨"app.apk", none, true, false⟩
    (fun _ _ => .success apkA) [] apkA rfl rfl

/-- The search of the pattern over the whole string succeeds exactly
when the pattern matches at some offset. -/
theorem searchDotApk_eq_true_iff (s : List Char) :
    searchDotApk s = true ↔ ∃ i, dotApkAt (s.drop i) = true := by
  induction s with
  | nil =>
    simp only [searchDotApk, List.drop_nil]
    constructor
    · intro h; cases h
    · rintro ⟨i, hi⟩; cases hi
  | cons c rest ih =>
    simp only [searchDotApk, Bool.or_eq_true, ih]
    constructor
    · rintro (h | ⟨i, hi⟩)
      · exact ⟨0, h⟩
      · exact ⟨i + 1, by simpa using hi⟩
    · rintro ⟨i, hi⟩
      cases i with
      | zero => exact Or.inl (by simpa using hi)
      | succ n => exact Or.inr ⟨n, by simpa using hi⟩

/-- C8: `get_apk_filename_without_extension` removes the last four
characters of the basename whenever the pattern (a dot followed by
the letters a, p, k in any case) matches anywhere in the full path —
even in a directory component or mid-name — and returns the
unmodified basename when the pattern matches at no offset of the
path. -/
theorem get_apk_filename_characterization (fp : String) :
    ((∃ i, dotApkAt (fp.toList.drop i) = true) →
       get_apk_filename_without_extension fp
         = String.mk ((basenameChars fp.toList).take ((basenameChars fp.toList).length - 4)))
    ∧ ((∀ i, i < fp.toList.length → dotApkAt (fp.toList.drop i) = false) →
       get_apk_filename_without_extension fp = String.mk (basenameChars fp.toList)) := by
  constructor
  · intro h
    have hs : searchDotApk fp.toList = true := (searchDotApk_eq_true_iff _).mpr h
    simp only [String.toList] at hs
    simp [get_apk_filename_without_extension, hs]
  · intro h
    have hall : ∀ i, dotApkAt (fp.toList.drop i) = false := by
      intro i
      rcases Nat.lt_or_ge i fp.toList.length with hi | hi
      · exact h i hi
      · rw [List.drop_eq_nil_of_le hi]; rfl
    have hs : searchDotApk fp.toList = false := by
      cases hcase : searchDotApk fp.toList
      · rfl
      · obtain ⟨i, hi⟩ := (searchDotApk_eq_true_iff _).mp hcase
        rw [hall i] at hi
        cases hi
    simp only [String.toList] at hs
    simp [get_apk_filename_without_extension, hs]

/-- Witness for C8: a path where the pattern occurs only in a
directory component (so the basename loses its last four characters
even though they are not ".apk"), and a path without the pattern. -/
theorem get_apk_filename_characterization_witness :
    get_apk_filename_without_extension "/foo.apk/readme.txt"
      = String.mk ((basenameChars "/foo.apk/readme.txt".toList).take
          ((basenameChars "/foo.apk/readme.txt".toList).length - 4))
    ∧ get_apk_filename_without_extension "/dir/plain.txt"
      = String.mk (basenameChars "/dir/plain.txt".toList) :=
  ⟨(get_apk_filename_characterization "/foo.apk/readme.txt").1 ⟨4, by decide⟩,
   (get_apk_filename_characterization "/dir/plain.txt").2 (by decide)⟩

/-- C9: when `--extract` is given without a value, or with the exact
value `"./"`, the output directory passed to all six collaborators is
`"./"` concatenated with the APK file name without its extension; any
other explicitly given directory string is passed to the
collaborators verbatim. -/
theorem extract_flag_output_directory (cl : CommandLine)
    (construct : String → Bool → ConstructionOutcome) (fs : FS) (apk : APK)
    (hc : construct cl.target (!cl.no_string_processing_flag) = .success apk) :
    (cl.extract_flag = some none ∨ cl.extract_flag = some (some "./") →
       collaboratorOutDirs (main (get_args cl) construct fs).2.1
         = List.replicate 6 ("./" ++ get_apk_filename_without_extension cl.target))
    ∧ (∀ d, d ≠ "./" → cl.extract_flag = some (some d) →
       collaboratorOutDirs (main (get_args cl) construct fs).2.1
         = List.replicate 6 d) := by
  constructor
  · intro h
    rcases h with h | h <;>
      by_cases hv : cl.verbose_flag <;>
      by_cases hex : os_path_exists fs ("./" ++ get_apk_filename_without_extension cl.target) <;>
      simp_all [main, get_args, read_target_file, extract_apk_info_to_directory,
        create_output_directory_if_needed, collaboratorOutDirs, collabOutDir,
        List.replicate_succ]
  · intro d hd h
    by_cases hv : cl.verbose_flag <;>
      by_cases hex : os_path_exists fs d <;>
      simp_all [main, get_args, read_target_file, extract_apk_info_to_directory,
        create_output_directory_if_needed, collaboratorOutDirs, collabOutDir,
        List.replicate_succ]

/-- Witness for C9: the default-directory case and the verbatim
case at concrete command lines. -/
theorem extract_flag_output_directory_witness :
    collaboratorOutDirs (main (get_args ⟨"app.apk", some none, false, false⟩)
        (fun _ _ => .success apkA) []).2.1
      = List.replicate 6 ("./" ++ get_apk_filename_without_extension "app.apk")
    ∧ collaboratorOutDirs (main (get_args ⟨"app.apk", some (some "out"), false, false⟩)
        (fun _ _ => .success apkA) []).2.1
      = List.replicate 6 "out" :=
  ⟨(extract_flag_output_directory ⟨"app.apk", some none, false, false⟩
      (fun _ _ => .success apkA) [] apkA rfl).1 (Or.inl rfl),
   (extract_flag_output_directory ⟨"app.apk", some (some "out"), false, false⟩
      (fun _ _ => .success apkA) [] apkA rfl).2 "out" (by decide) rfl⟩

/-- C10: `create_output_directory_if_needed` creates the output
directory only when no filesystem entry with that path exists and
leaves the filesystem unchanged otherwise, and inside
`extract_apk_info_to_directory` its effects precede every
collaborator invocation. -/
theorem create_output_directory_frame (outdir : String) (fs : FS)
    (apk : APK) (fp fn dir : String) :
    (os_path_exists fs outdir = true →
       (create_output_directory_if_needed outdir fs).1 = fs
       ∧ (create_output_directory_if_needed outdir fs).2 = [])
    ∧ (os_path_exists fs outdir = false →
       (create_output_directory_if_needed outdir fs).1 = outdir :: fs
       ∧ (create_output_directory_if_needed outdir fs).2.filter
            (fun e => match e with | .createDir _ => true | _ => false)
          = [.createDir outdir])
    ∧ (extract_apk_info_to_directory apk fp fn dir fs).2
        = (create_output_directory_if_needed
             (if dir = "./" then dir ++ fn else dir) fs).2
          ++ collaboratorCalls (extract_apk_info_to_directory apk fp fn dir fs).2 := by
  refine ⟨fun h => ?_, fun h => ?_, ?_⟩
  · simp [create_output_directory_if_needed, h]
  · simp [create_output_directory_if_needed, h, List.filter]
  · by_cases hdd : dir = "./" <;>
      by_cases hex : os_path_exists fs (if dir = "./" then dir ++ fn else dir) <;>
      simp_all [extract_apk_info_to_directory, create_output_directory_if_needed,
        collaboratorCalls, isCollaboratorCall, List.filter]

/-- Witness for C10: an existing and a missing output directory at
concrete inputs. -/
theorem create_output_directory_frame_witness :
    ((create_output_directory_if_needed "out" ["out"]).1 = ["out"]
      ∧ (create_output_directory_if_needed "out" ["out"]).2 = [])
    ∧ ((create_output_directory_if_needed "out" []).1 = ["out"]
      ∧ (create_output_directory_if_needed "out" []).2.filter
           (fun e => match e with | .createDir _ => true | _ => false)
         = [.createDir "out"]) :=
  ⟨(create_output_directory_frame "out" ["out"] apkA "a" "b" "c").1 (by decide),
   (create_output_directory_frame "out" [] apkA "a" "b" "c").2.1 (by decide)⟩

end NinjaDroid
